import Mathlib

/-!
Shallow embedding of the OpenCellID data-engineering pipeline
(`DataProcessor.py`, `FileManager.py`, `HeatMapGenerator.py`).

A dataframe is modelled as a list of column labels plus a list of rows,
each row a list of cells; a cell is a string, a rational number, or the
missing marker (pandas NaN). Column access (`df["name"]`) is label-based,
as in pandas.
-/

namespace OpenCellID

/-- A single cell of a dataframe: a string, a number, or a missing value
(pandas NaN). -/
inductive Cell where
  | str : String → Cell
  | num : ℚ → Cell
  | na : Cell
deriving DecidableEq, Repr

/-- Rendering of a cell as a string, as `astype(str)` does. -/
def cellToString : Cell → String
  | .str s => s
  | .num q => toString q
  | .na => "nan"

/-- A dataframe: ordered column labels and rows of cells. -/
structure Df where
  cols : List String
  rows : List (List Cell)
deriving DecidableEq, Repr

/-- `df["name"]` for one row: the cell in the column labelled `name`
(first occurrence), `na` when the column is absent or the row is short. -/
def getCol (df : Df) (r : List Cell) (name : String) : Cell :=
  match (df.cols.zip r).lookup name with
  | some c => c
  | none => Cell.na

/-- `cell >= q` in pandas: numeric comparison, false on non-numbers. -/
def Cell.geq (c : Cell) (q : ℚ) : Bool :=
  match c with
  | .num a => decide (q ≤ a)
  | _ => false

/-- `cell <= q` in pandas: numeric comparison, false on non-numbers. -/
def Cell.leq (c : Cell) (q : ℚ) : Bool :=
  match c with
  | .num a => decide (a ≤ q)
  | _ => false

/-- A geographic bounding box, `DataProcessor.REGION_BOUNDS` values. -/
structure RegionBounds where
  lat_min : ℚ
  lat_max : ℚ
  lon_min : ℚ
  lon_max : ℚ
deriving DecidableEq, Repr

namespace DataProcessor

/-- `DataProcessor.REGION_BOUNDS`: the fixed region registry. -/
def REGION_BOUNDS : List (String × RegionBounds) :=
  [("München", ⟨mkRat 48061 1000, mkRat 48248 1000, mkRat 11360 1000, mkRat 11722 1000⟩),
   ("Berlin", ⟨mkRat 52338 1000, mkRat 52675 1000, mkRat 13088 1000, mkRat 13761 1000⟩),
   ("Hamburg", ⟨mkRat 53395 1000, mkRat 53703 1000, mkRat 9732 1000, mkRat 10271 1000⟩)]

/-- The payload of the ValueError raised by `DataProcessor.__init__` for an
unknown region: the f-string interpolates the requested name and the list of
available region names. -/
structure UnknownRegionError where
  requested : String
  available : List String
deriving DecidableEq, Repr

/-- `DataProcessor.__init__`: resolves the region name against
`REGION_BOUNDS`; raises ValueError (carrying the requested name and the list
of valid names) when the name is not registered. No record data is involved. -/
def init (region_name : String) : Except UnknownRegionError RegionBounds :=
  match REGION_BOUNDS.lookup region_name with
  | some b => Except.ok b
  | none => Except.error ⟨region_name, REGION_BOUNDS.map Prod.fst⟩

/-- The 14 column labels assigned positionally by `add_header`. -/
def columns14 : List String :=
  ["radio", "mcc", "net", "area", "cell", "unit",
   "lon", "lat", "range", "samples",
   "changeable", "created", "updated", "averageSignal"]

/-- `pd.read_csv` with default options: the first line of the file becomes
the column labels (rendered as strings); the remaining lines become the data
rows, padded with NaN when shorter than the header. An empty file or a data
line with more fields than the header raises (EmptyDataError / ParserError),
modelled as `none`. -/
def read_csv (lines : List (List Cell)) : Option Df :=
  match lines with
  | [] => none
  | header :: rest =>
    if rest.all (fun r => r.length ≤ header.length) then
      some ⟨header.map cellToString,
            rest.map (fun r => r ++ List.replicate (header.length - r.length) Cell.na)⟩
    else none

/-- `DataProcessor.add_header`: `df.columns = columns` renames the 14 columns
positionally; pandas raises ValueError (length mismatch) when the dataframe
does not have exactly 14 columns. -/
def add_header (df : Df) : Except String Df :=
  if df.cols.length = 14 then Except.ok ⟨columns14, df.rows⟩
  else Except.error "ValueError: Length mismatch: new values have 14 elements"

/-- `DataProcessor.remove_empty_rows`: `df.dropna()` drops every row that
contains a missing value. -/
def remove_empty_rows (df : Df) : Df :=
  ⟨df.cols, df.rows.filter (fun r => r.all (fun c => !(c == Cell.na)))⟩

/-- Helper of `remove_duplicates`: keeps the first occurrence of each row. -/
def dedup_rows (seen : List (List Cell)) : List (List Cell) → List (List Cell)
  | [] => []
  | r :: rs => if r ∈ seen then dedup_rows seen rs else r :: dedup_rows (r :: seen) rs

/-- `DataProcessor.remove_duplicates`: `df.drop_duplicates()` keeps the first
occurrence of each full row. -/
def remove_duplicates (df : Df) : Df :=
  ⟨df.cols, dedup_rows [] df.rows⟩

/-- The row predicate of `filter_region`: `lat >= lat_min & lat <= lat_max &
lon >= lon_min & lon <= lon_max`, all comparisons inclusive. -/
def inRegion (b : RegionBounds) (df : Df) (r : List Cell) : Bool :=
  (getCol df r "lat").geq b.lat_min && (getCol df r "lat").leq b.lat_max &&
  (getCol df r "lon").geq b.lon_min && (getCol df r "lon").leq b.lon_max

/-- `DataProcessor.filter_region`: keeps the rows inside the bounding box. -/
def filter_region (b : RegionBounds) (df : Df) : Df :=
  ⟨df.cols, df.rows.filter (inRegion b df)⟩

/-- `DataProcessor.filter_for_mcc_262`: keeps the rows with `mcc == 262`. -/
def filter_for_mcc_262 (df : Df) : Df :=
  ⟨df.cols, df.rows.filter (fun r => getCol df r "mcc" == Cell.num 262)⟩

/-- The 7 columns kept by `filter_relevant_columns`, in that order. -/
def columns_to_keep : List String :=
  ["lon", "lat", "mcc", "range", "net", "cell", "averageSignal"]

/-- `DataProcessor.filter_relevant_columns`: `df[columns_to_keep]` projects
each row onto the 7 kept columns, in the listed order. -/
def filter_relevant_columns (df : Df) : Df :=
  ⟨columns_to_keep, df.rows.map (fun r => columns_to_keep.map (fun c => getCol df r c))⟩

/-- `DataProcessor.filter_for_mnc`: keeps the rows whose `net` value is in
the accepted operator-code list (`df["net"].isin(self.mnc)`). -/
def filter_for_mnc (mnc : List ℚ) (df : Df) : Df :=
  ⟨df.cols, df.rows.filter (fun r => mnc.any (fun m => getCol df r "net" == Cell.num m))⟩

/-- The observable outcome of one `load_and_clean_data` call: the value
returned to the caller and the dataframe written to `final_dataset.csv`
(if any). -/
structure CleanOutcome where
  returned : Option Df
  saved : Option Df
deriving DecidableEq, Repr

/-- The post-header stage chain of `load_and_clean_data`, in source order:
remove_empty_rows, remove_duplicates, filter_region, filter_for_mcc_262,
filter_relevant_columns, filter_for_mnc. -/
def clean_stages (b : RegionBounds) (mnc : List ℚ) (h : Df) : Df :=
  filter_for_mnc mnc (filter_relevant_columns
    (filter_for_mcc_262 (filter_region b
      (remove_duplicates (remove_empty_rows h)))))

/-- `DataProcessor.load_and_clean_data`: reads the csv (any read error is
caught and the function returns None), then applies add_header followed by
the `clean_stages` chain, saves the final dataframe to `final_dataset.csv`,
and falls off the end of the function — so the caller receives None on
success as well. The uncaught ValueError of `add_header` propagates as
`Except.error`. -/
def load_and_clean_data (b : RegionBounds) (mnc : List ℚ)
    (file : Option (List (List Cell))) : Except String CleanOutcome :=
  match file with
  | none => Except.ok ⟨none, none⟩
  | some lines =>
    match read_csv lines with
    | none => Except.ok ⟨none, none⟩
    | some df =>
      match add_header df with
      | Except.error e => Except.error e
      | Except.ok h => Except.ok ⟨none, some (clean_stages b mnc h)⟩

end DataProcessor

namespace FileManager

/-- `FileManager.load_previous_snapshot`: reads the snapshot csv; a missing
file (FileNotFoundError) is caught and yields None; any other read failure
(e.g. an empty file) propagates. -/
def load_previous_snapshot (file : Option (List (List Cell))) :
    Except String (Option Df) :=
  match file with
  | none => Except.ok none
  | some lines =>
    match DataProcessor.read_csv lines with
    | none => Except.error "pandas errors EmptyDataError"
    | some df => Except.ok (some df)

end FileManager

namespace HeatmapGenerator

/-- `df["cell"] = df["cell"].astype(str)`: overwrites the cell column of the
dataframe with its string rendering, in place in the source. -/
def astype_str_cell (df : Df) : Df :=
  ⟨df.cols,
   df.rows.map (fun r =>
     r.set (df.cols.indexOf "cell") (Cell.str (cellToString (getCol df r "cell"))))⟩

/-- `HeatmapGenerator.generate_difference_heatmap`, data part: overwrites the
cell column of both inputs with `astype(str)` copies (mutating the callers'
dataframes), then keeps the rows of the new set whose cell value does not
occur among the old set's cell values. Returns the final states of
(new_df, old_df) and the computed new entries. Passing None as old_df makes
the very first statement `old_df["cell"]` raise a TypeError, modelled as
`Except.error`. -/
def generate_difference_heatmap (new_df : Df) (old_df : Option Df) :
    Except String (Df × Df × Df) :=
  match old_df with
  | none => Except.error "TypeError: NoneType object is not subscriptable"
  | some od =>
    let od2 := astype_str_cell od
    let nd2 := astype_str_cell new_df
    let oldCells := od2.rows.map (fun r => getCol od2 r "cell")
    let new_data : Df :=
      ⟨nd2.cols, nd2.rows.filter (fun r => !(oldCells.contains (getCol nd2 r "cell")))⟩
    Except.ok (nd2, od2, new_data)

/-- Observer for the new-entries component computed by
`generate_difference_heatmap` (empty on the error path). -/
def diffRows (new_df : Df) (old_df : Option Df) : List (List Cell) :=
  match generate_difference_heatmap new_df old_df with
  | Except.ok t => t.2.2.rows
  | Except.error _ => []

end HeatmapGenerator

/-- The snapshot diff as the specification words it (for comparison with the
source's `generate_difference_heatmap`): exactly the rows of the new set that
have no full-row-equal counterpart in the old set. -/
def fullRowDiff (new_df old_df : Df) : Df :=
  ⟨new_df.cols, new_df.rows.filter (fun r => !(old_df.rows.contains r))⟩

/-- Bounding box of region "München" from `REGION_BOUNDS`. -/
def munichBounds : RegionBounds := ⟨mkRat 48061 1000, mkRat 48248 1000, mkRat 11360 1000, mkRat 11722 1000⟩

/-- A sample 14-field header line for concrete evaluations. -/
def sampleHeader : List Cell := List.replicate 14 (Cell.str "x")

/-- A sample 14-field record inside the München box with mcc 262 and net 1
(column order: radio, mcc, net, area, cell, unit, lon, lat, range, samples,
changeable, created, updated, averageSignal). -/
def sampleRow : List Cell :=
  [Cell.str "LTE", Cell.num 262, Cell.num 1, Cell.num 10, Cell.num 777,
   Cell.num 0, Cell.num (mkRat 115 10), Cell.num (mkRat 482 10), Cell.num 1000, Cell.num 5,
   Cell.num 1, Cell.num 100, Cell.num 200, Cell.num (-90)]

/-- Like `sampleRow` but with mcc 310 (not Germany), so the country filter
removes it. -/
def sampleRowForeign : List Cell :=
  [Cell.str "LTE", Cell.num 310, Cell.num 1, Cell.num 10, Cell.num 777,
   Cell.num 0, Cell.num (mkRat 115 10), Cell.num (mkRat 482 10), Cell.num 1000, Cell.num 5,
   Cell.num 1, Cell.num 100, Cell.num 200, Cell.num (-90)]

/-- A concrete projected new snapshot: two rows, cell values 777 and 888
(columns lon, lat, mcc, range, net, cell, averageSignal). -/
def cexNew : Df :=
  ⟨DataProcessor.columns_to_keep,
   [[Cell.num (mkRat 115 10), Cell.num (mkRat 482 10), Cell.num 262, Cell.num 1000, Cell.num 1,
     Cell.num 777, Cell.num 5],
    [Cell.num (mkRat 116 10), Cell.num (mkRat 4821 100), Cell.num 262, Cell.num 900, Cell.num 1,
     Cell.num 888, Cell.num 7]]⟩

/-- A concrete projected old snapshot: one row with cell value 777 and a
different averageSignal than the corresponding row of `cexNew`. -/
def cexOld : Df :=
  ⟨DataProcessor.columns_to_keep,
   [[Cell.num (mkRat 115 10), Cell.num (mkRat 482 10), Cell.num 262, Cell.num 1000, Cell.num 1,
     Cell.num 777, Cell.num 9]]⟩

/-- The second row of `cexNew` after the cell column is converted to a
string, as the diff leaves it. -/
def cexRowNewStr : List Cell :=
  [Cell.num (mkRat 116 10), Cell.num (mkRat 4821 100), Cell.num 262, Cell.num 900, Cell.num 1,
   Cell.str "888", Cell.num 7]

end OpenCellID

namespace OpenCellID

/-- Helper: a row-filtering stage that keeps every row of a dataframe
returns the dataframe unchanged. -/
theorem df_filter_eq_self {df : Df} {p : List Cell → Bool}
    (h : ∀ r ∈ df.rows, p r = true) :
    Df.mk df.cols (df.rows.filter p) = df := by
  have hr : df.rows.filter p = df.rows := List.filter_eq_self.mpr h
  rw [hr]

/-- Helper: every row of the output of the four filtering stages comes from
an input row that satisfies the region, country and operator predicates, and
is its projection onto the seven kept columns. -/
theorem mem_filter_stages {b : RegionBounds} {mnc : List ℚ} {df : Df}
    {r : List Cell}
    (hr : r ∈ (DataProcessor.filter_for_mnc mnc (DataProcessor.filter_relevant_columns
      (DataProcessor.filter_for_mcc_262 (DataProcessor.filter_region b df)))).rows) :
    ∃ rr, rr ∈ df.rows ∧ DataProcessor.inRegion b df rr = true ∧
      (getCol df rr "mcc" == Cell.num 262) = true ∧
      (mnc.any fun m => getCol df rr "net" == Cell.num m) = true ∧
      r = DataProcessor.columns_to_keep.map fun c =>
        getCol (DataProcessor.filter_for_mcc_262 (DataProcessor.filter_region b df)) rr c := by
  have h1 := List.mem_filter.mp hr
  obtain ⟨rr, hrr2, hmap⟩ := List.mem_map.mp h1.1
  have h2 := List.mem_filter.mp hrr2
  have h3 := List.mem_filter.mp h2.1
  subst hmap
  exact ⟨rr, h3.1, h3.2, h2.2, h1.2, rfl⟩

/-- C9: on the output of the cleaning pipeline, re-applying the region
filter, the country (mcc == 262) filter and the operator (net membership)
filter removes no rows: each filter returns the pipeline output unchanged. -/
theorem filters_idempotent_on_pipeline_output (b : RegionBounds) (mnc : List ℚ)
    (h : Df) :
    DataProcessor.filter_region b (DataProcessor.clean_stages b mnc h) =
      DataProcessor.clean_stages b mnc h ∧
    DataProcessor.filter_for_mcc_262 (DataProcessor.clean_stages b mnc h) =
      DataProcessor.clean_stages b mnc h ∧
    DataProcessor.filter_for_mnc mnc (DataProcessor.clean_stages b mnc h) =
      DataProcessor.clean_stages b mnc h := by
  refine ⟨df_filter_eq_self fun r hr => ?_, df_filter_eq_self fun r hr => ?_,
          df_filter_eq_self fun r hr => ?_⟩
  all_goals obtain ⟨rr, hmem, hreg, hmcc, hmnc, rfl⟩ := mem_filter_stages hr
  · exact hreg
  · exact hmcc
  · exact hmnc

end OpenCellID

namespace OpenCellID

/-- C7: for every region name that is not a registered key, pipeline
construction fails, and the error reports both the requested name and the
full list of valid region names; no record data is involved. -/
theorem init_unknown_region (region_name : String)
    (h1 : region_name ≠ "München") (h2 : region_name ≠ "Berlin")
    (h3 : region_name ≠ "Hamburg") :
    DataProcessor.init region_name =
      Except.error ⟨region_name, ["München", "Berlin", "Hamburg"]⟩ := by
  have e1 : (region_name == "München") = false := beq_eq_false_iff_ne.mpr h1
  have e2 : (region_name == "Berlin") = false := beq_eq_false_iff_ne.mpr h2
  have e3 : (region_name == "Hamburg") = false := beq_eq_false_iff_ne.mpr h3
  simp [DataProcessor.init, DataProcessor.REGION_BOUNDS, List.lookup, e1, e2, e3]

/-- Witness for C7 at the concrete unregistered name "Paris". -/
theorem init_unknown_region_witness :
    DataProcessor.init "Paris" =
      Except.error ⟨"Paris", ["München", "Berlin", "Hamburg"]⟩ :=
  init_unknown_region "Paris" (by decide) (by decide) (by decide)

/-- C8: the region filter keeps exactly the rows whose lat and lon lie
within the bounds, both comparisons inclusive on both ends. -/
theorem filter_region_inclusive (b : RegionBounds) (df : Df) (r : List Cell)
    (la lo : ℚ) (hla : getCol df r "lat" = Cell.num la)
    (hlo : getCol df r "lon" = Cell.num lo) :
    r ∈ (DataProcessor.filter_region b df).rows ↔
      r ∈ df.rows ∧ b.lat_min ≤ la ∧ la ≤ b.lat_max ∧
        b.lon_min ≤ lo ∧ lo ≤ b.lon_max := by
  simp [DataProcessor.filter_region, List.mem_filter, DataProcessor.inRegion,
    hla, hlo, Cell.geq, Cell.leq, and_assoc]

/-- Witness for C8: a row whose lat equals lat_max exactly (München bounds)
is retained by the region filter. -/
theorem filter_region_inclusive_witness :
    [Cell.num (mkRat 115 10), Cell.num (mkRat 48248 1000)] ∈
      (DataProcessor.filter_region munichBounds
        ⟨["lon", "lat"],
         [[Cell.num (mkRat 115 10), Cell.num (mkRat 48248 1000)]]⟩).rows :=
  (filter_region_inclusive munichBounds
    ⟨["lon", "lat"], [[Cell.num (mkRat 115 10), Cell.num (mkRat 48248 1000)]]⟩
    [Cell.num (mkRat 115 10), Cell.num (mkRat 48248 1000)]
    (mkRat 48248 1000) (mkRat 115 10)
    rfl rfl).mpr ⟨by decide, by decide, by decide, by decide, by decide⟩

/-- C5: when the loaded dataframe does not have exactly 14 columns, the
header-assignment stage fails with the pandas length-mismatch ValueError
(the spec's SchemaMismatchError) and the whole pipeline call propagates that
error, so the null-removal stage never runs and nothing is saved. -/
theorem schema_mismatch_aborts (b : RegionBounds) (mnc : List ℚ)
    (lines : List (List Cell)) (df : Df)
    (hread : DataProcessor.read_csv lines = some df)
    (hcols : df.cols.length ≠ 14) :
    DataProcessor.add_header df =
      Except.error "ValueError: Length mismatch: new values have 14 elements" ∧
    DataProcessor.load_and_clean_data b mnc (some lines) =
      Except.error "ValueError: Length mismatch: new values have 14 elements" := by
  have hah : DataProcessor.add_header df =
      Except.error "ValueError: Length mismatch: new values have 14 elements" := by
    unfold DataProcessor.add_header
    rw [if_neg hcols]
  refine ⟨hah, ?_⟩
  simp [DataProcessor.load_and_clean_data, hread, hah]

/-- Witness for C5 at a concrete 13-column input. -/
theorem schema_mismatch_aborts_witness :
    DataProcessor.add_header
        ⟨List.replicate 13 "x", [List.replicate 13 (Cell.num 0)]⟩ =
      Except.error "ValueError: Length mismatch: new values have 14 elements" ∧
    DataProcessor.load_and_clean_data munichBounds [1, 6]
        (some [List.replicate 13 (Cell.str "x"), List.replicate 13 (Cell.num 0)]) =
      Except.error "ValueError: Length mismatch: new values have 14 elements" :=
  schema_mismatch_aborts munichBounds [1, 6]
    [List.replicate 13 (Cell.str "x"), List.replicate 13 (Cell.num 0)]
    ⟨List.replicate 13 "x", [List.replicate 13 (Cell.num 0)]⟩
    (by decide) (by decide)

/-- C3: the loader consumes the file's first line as column labels, so the
dataframe that enters the null-removal stage holds exactly the remaining
lines as rows: one fewer row than the file has lines. -/
theorem header_consumes_first_line (l : List Cell) (ls : List (List Cell))
    (df h : Df) (hread : DataProcessor.read_csv (l :: ls) = some df)
    (hhead : DataProcessor.add_header df = Except.ok h) :
    df.cols = l.map cellToString ∧
    h.rows = ls.map (fun r => r ++ List.replicate (l.length - r.length) Cell.na) ∧
    h.rows.length + 1 = (l :: ls).length := by
  simp only [DataProcessor.read_csv] at hread
  split at hread
  next =>
    injection hread with hdf
    subst hdf
    unfold DataProcessor.add_header at hhead
    split at hhead
    next =>
      injection hhead with hh
      subst hh
      exact ⟨rfl, rfl, by simp⟩
    next => exact Except.noConfusion hhead
  next => exact Option.noConfusion hread

/-- Witness for C3 at a concrete two-line, 14-column file. -/
theorem header_consumes_first_line_witness :
    (⟨List.replicate 14 "x", [sampleRow]⟩ : Df).cols =
      sampleHeader.map cellToString ∧
    (⟨DataProcessor.columns14, [sampleRow]⟩ : Df).rows =
      [sampleRow].map
        (fun r => r ++ List.replicate (sampleHeader.length - r.length) Cell.na) ∧
    (⟨DataProcessor.columns14, [sampleRow]⟩ : Df).rows.length + 1 =
      (sampleHeader :: [sampleRow]).length :=
  header_consumes_first_line sampleHeader [sampleRow]
    ⟨List.replicate 14 "x", [sampleRow]⟩ ⟨DataProcessor.columns14, [sampleRow]⟩
    (by decide) rfl

end OpenCellID

namespace OpenCellID

/-- C1: for every raw record set that loads successfully, the pipeline entry
point applies the seven stages in the fixed source order (the `clean_stages`
composition after `add_header`), and the final operator-filter output — a
7-column projected record set — is the dataframe that gets saved; the value
returned to the caller, however, is None, not that record set. -/
theorem load_and_clean_data_saves_final (b : RegionBounds) (mnc : List ℚ)
    (lines : List (List Cell)) (df h : Df)
    (hread : DataProcessor.read_csv lines = some df)
    (hhead : DataProcessor.add_header df = Except.ok h) :
    DataProcessor.load_and_clean_data b mnc (some lines) =
      Except.ok ⟨none, some (DataProcessor.clean_stages b mnc h)⟩ ∧
    (DataProcessor.clean_stages b mnc h).cols = DataProcessor.columns_to_keep := by
  refine ⟨?_, rfl⟩
  simp [DataProcessor.load_and_clean_data, hread, hhead]

/-- Witness for C1 at a concrete one-record, 14-column file. -/
theorem load_and_clean_data_saves_final_witness :
    DataProcessor.load_and_clean_data munichBounds [1, 6]
        (some [sampleHeader, sampleRow]) =
      Except.ok ⟨none, some (DataProcessor.clean_stages munichBounds [1, 6]
        ⟨DataProcessor.columns14, [sampleRow]⟩)⟩ ∧
    (DataProcessor.clean_stages munichBounds [1, 6]
      ⟨DataProcessor.columns14, [sampleRow]⟩).cols =
      DataProcessor.columns_to_keep :=
  load_and_clean_data_saves_final munichBounds [1, 6] [sampleHeader, sampleRow]
    ⟨List.replicate 14 "x", [sampleRow]⟩ ⟨DataProcessor.columns14, [sampleRow]⟩
    (by decide) rfl

/-- C6: when the initial load fails, the entry point returns the failure
marker before any stage runs and saves nothing; when the load succeeds, the
pipeline completes and saves the (possibly empty) 7-column final dataframe —
an observable outcome distinct from the load failure. -/
theorem load_failure_distinct_from_empty (b : RegionBounds) (mnc : List ℚ)
    (lines : List (List Cell)) (df h : Df)
    (hread : DataProcessor.read_csv lines = some df)
    (hhead : DataProcessor.add_header df = Except.ok h) :
    DataProcessor.load_and_clean_data b mnc none = Except.ok ⟨none, none⟩ ∧
    DataProcessor.load_and_clean_data b mnc (some lines) =
      Except.ok ⟨none, some (DataProcessor.clean_stages b mnc h)⟩ ∧
    (⟨none, some (DataProcessor.clean_stages b mnc h)⟩ :
      DataProcessor.CleanOutcome) ≠ ⟨none, none⟩ := by
  refine ⟨rfl, ?_, ?_⟩
  · simp [DataProcessor.load_and_clean_data, hread, hhead]
  · intro hco
    exact Option.noConfusion (congrArg DataProcessor.CleanOutcome.saved hco)

/-- Witness for C6 at a concrete input whose single record is removed by the
country filter, so the saved final record set is empty yet the outcome
differs from the load-failure outcome. -/
theorem load_failure_distinct_from_empty_witness :
    (DataProcessor.load_and_clean_data munichBounds [1, 6] none =
        Except.ok ⟨none, none⟩ ∧
      DataProcessor.load_and_clean_data munichBounds [1, 6]
          (some [sampleHeader, sampleRowForeign]) =
        Except.ok ⟨none, some (DataProcessor.clean_stages munichBounds [1, 6]
          ⟨DataProcessor.columns14, [sampleRowForeign]⟩)⟩ ∧
      (⟨none, some (DataProcessor.clean_stages munichBounds [1, 6]
          ⟨DataProcessor.columns14, [sampleRowForeign]⟩)⟩ :
        DataProcessor.CleanOutcome) ≠ ⟨none, none⟩) ∧
    (DataProcessor.clean_stages munichBounds [1, 6]
      ⟨DataProcessor.columns14, [sampleRowForeign]⟩).rows = [] :=
  ⟨load_failure_distinct_from_empty munichBounds [1, 6]
      [sampleHeader, sampleRowForeign]
      ⟨List.replicate 14 "x", [sampleRowForeign]⟩
      ⟨DataProcessor.columns14, [sampleRowForeign]⟩
      (by decide) rfl,
    by decide⟩

/-- C2 counterexample: at `cexNew`/`cexOld` — same cell value 777 on both
sides but a changed averageSignal — the source's diff drops the changed row
(it compares only the string-converted cell column), while the claimed
full-row comparison keeps it, so the two results differ. -/
theorem diff_not_full_row_cex :
    HeatmapGenerator.diffRows cexNew (some cexOld) ≠
      (fullRowDiff cexNew cexOld).rows := by decide

/-- C2 (amended): the diff keeps exactly the rows of the string-converted
new set whose cell value occurs among none of the string-converted old set's
cell values, and it preserves multiplicity: a qualifying row occurring n
times in the new set occurs n times in the result. -/
theorem diff_cell_membership (new_df old_df : Df) (r : List Cell) :
    (r ∈ HeatmapGenerator.diffRows new_df (some old_df) ↔
      r ∈ (HeatmapGenerator.astype_str_cell new_df).rows ∧
        ∀ s ∈ (HeatmapGenerator.astype_str_cell old_df).rows,
          getCol (HeatmapGenerator.astype_str_cell old_df) s "cell" ≠
            getCol (HeatmapGenerator.astype_str_cell new_df) r "cell") ∧
    ((r ∈ (HeatmapGenerator.astype_str_cell new_df).rows ∧
        ∀ s ∈ (HeatmapGenerator.astype_str_cell old_df).rows,
          getCol (HeatmapGenerator.astype_str_cell old_df) s "cell" ≠
            getCol (HeatmapGenerator.astype_str_cell new_df) r "cell") →
      List.count r (HeatmapGenerator.diffRows new_df (some old_df)) =
        List.count r (HeatmapGenerator.astype_str_cell new_df).rows) := by
  constructor
  · simp [HeatmapGenerator.diffRows, HeatmapGenerator.generate_difference_heatmap,
      List.mem_filter]
  · intro hcond
    refine List.count_filter ?_
    simp only [Bool.not_eq_true']
    simp [List.contains]
    intro s hs
    exact fun heq => hcond.2 s hs heq

/-- Witness for C2: the row of `cexNew` with the fresh cell value 888 is in
the diff result (in its string-converted form). -/
theorem diff_cell_membership_witness :
    cexRowNewStr ∈ HeatmapGenerator.diffRows cexNew (some cexOld) :=
  (diff_cell_membership cexNew cexOld cexRowNewStr).1.mpr ⟨by decide, by decide⟩

/-- C4 counterexample: with an absent old snapshot (None), the diff does not
return the new set — it produces no ok result at all. -/
theorem diff_absent_old_cex :
    (HeatmapGenerator.generate_difference_heatmap cexNew none).toOption.map
      (fun t => t.2.2) ≠ some cexNew := by decide

/-- C4 (amended): the snapshot loader signals an absent snapshot with None,
but the diff has no explicit absent-snapshot path: called with None it fails
with a TypeError at the very first subscript of old_df, for every new set. -/
theorem diff_absent_old_raises :
    FileManager.load_previous_snapshot none = Except.ok none ∧
    ∀ new_df : Df, HeatmapGenerator.generate_difference_heatmap new_df none =
      Except.error "TypeError: NoneType object is not subscriptable" :=
  ⟨rfl, fun _ => rfl⟩

/-- C10: the diff overwrites the cell column of both of its inputs with
string-converted copies before comparing — the final states of new_df and
old_df are the `astype_str_cell` versions — and on the concrete inputs
`cexNew`/`cexOld` those states differ from the originals. -/
theorem diff_mutates_inputs :
    (∀ new_df old_df : Df, ∃ d : Df,
      HeatmapGenerator.generate_difference_heatmap new_df (some old_df) =
        Except.ok (HeatmapGenerator.astype_str_cell new_df,
                   HeatmapGenerator.astype_str_cell old_df, d)) ∧
    HeatmapGenerator.astype_str_cell cexNew ≠ cexNew ∧
    HeatmapGenerator.astype_str_cell cexOld ≠ cexOld :=
  ⟨fun n o => ⟨_, rfl⟩, by decide, by decide⟩

end OpenCellID
